import Mathlib

/-
  Verification of the sparkling-osm-router orchestration layer.

  Shallow embedding of the TypeScript sources:
  * `RouteQueue` (route batch queue: state-error gating, telemetry, counters)
  * `Graph.loadGraph` (idempotent load)
  * `Profile` penalty-table flattening
  * the Ramer-Douglas-Peucker shape simplifier
  * the parallel-curve shape offsetter

  JavaScript floating-point numbers are modelled as real numbers (`ℝ`) in the
  geometry code and as rationals (`ℚ`) where all arithmetic is field
  arithmetic on timestamps and counters.  Fallible operations (`throw`)
  are modelled with `Except`.
-/

/-! ## RouteQueue state-error gating (src/unnamed/part_001, RouteQueue class) -/

/-- Orchestration-layer state of a `RouteQueue`: the `processing` flag of the
TypeScript class together with the number of tasks waiting in the engine-side
queue (the `queuedTasks` field reported by `getStatus`). -/
structure RouteQueueState where
  processing : Bool
  queuedTasks : Nat
deriving DecidableEq

/-- Error message thrown by `enqueueRoute` while processing. -/
def enqueueErrorMsg : String := "Queue is already processing. Cannot enqueue new routes."

/-- Error message thrown by `clear` while processing. -/
def clearErrorMsg : String := "Cannot clear queue while processing."

/-- Error message thrown by `awaitAll` while processing. -/
def awaitAllErrorMsg : String := "Queue is already processing. Cannot await new routes."

/-- `RouteQueue.enqueueRoute`: throws a state error while a processing run is
in flight; otherwise delegates to the engine's `enqueueRoute` (which adds the
task to the engine-side queue and echoes the route id back). -/
def enqueueRouteOp (s : RouteQueueState) (routeId : String) :
    Except String (RouteQueueState × String) :=
  if s.processing then .error enqueueErrorMsg
  else .ok ({ s with queuedTasks := s.queuedTasks + 1 }, routeId)

/-- `RouteQueue.clear`: throws a state error while processing; otherwise
delegates to the engine's `clearRouteQueue`, which drops the
not-yet-dispatched tasks. -/
def clearOp (s : RouteQueueState) : Except String RouteQueueState :=
  if s.processing then .error clearErrorMsg
  else .ok { s with queuedTasks := 0 }

/-- Entry of `RouteQueue.awaitAll`: throws a state error while processing;
resolves immediately when there are no queued tasks (without setting the
`processing` flag); otherwise sets `processing := true` and starts the run. -/
def awaitAllStart (s : RouteQueueState) : Except String RouteQueueState :=
  if s.processing then .error awaitAllErrorMsg
  else if s.queuedTasks = 0 then .ok s
  else .ok { s with processing := true }

/-- Resolution of an `awaitAll` run (the `processQueue` callback once
`completedTasks >= totalTasks`): the `processing` flag is reset. -/
def finishRun (s : RouteQueueState) : RouteQueueState :=
  { s with processing := false }

/-- `true` exactly when the call was accepted (did not throw). -/
def opAccepted {α : Type} : Except String α → Bool
  | .ok _ => true
  | .error _ => false

/-! ## Graph load lifecycle (src/src/modules/Graph.ts) -/

/-- Orchestration-layer state of a `Graph`: the cached handle (`graphId`,
`null` while unloaded) together with a count of the calls made to the
engine's `loadGraph` operation. -/
structure GraphState where
  graphId : Option Int
  engineLoadCalls : Nat
deriving DecidableEq

/-- `Graph.loadGraph`: returns the cached handle when one is present;
otherwise calls the engine's `loadGraph` (modelled as returning the supplied
`engineHandle`), stores the handle and returns it.  The directory-creation
side effect is filesystem I/O and is not modelled. -/
def loadGraphOp (engineHandle : Int) (s : GraphState) : Int × GraphState :=
  match s.graphId with
  | some gid => (gid, s)
  | none => (engineHandle, ⟨some engineHandle, s.engineLoadCalls + 1⟩)

/-! ## RouteQueue concurrency default (src/unnamed/part_001 constructor) -/

/-- Default `maxConcurrency` of the `RouteQueue` constructor:
`cpus().length - 1` in JavaScript number arithmetic (so `0` on a machine with
a single logical CPU). -/
def defaultMaxConcurrency (cpuCount : Nat) : Int := (cpuCount : Int) - 1

/-- Modelled from the spec: the worker-pool sizing of the native engine's
`createRouteQueue` is not under `src/`; the spec states that the engine
spawns up to `maxConcurrency` workers with a minimum of 1. -/
def engineWorkerBound (maxConcurrency : Int) : Int := max 1 maxConcurrency

/-! ## Progress telemetry (src/unnamed/part_002, `updateProgress`) -/

/-- The sliding-window prune of `updateProgress`: the
`while completionTimes[0] < cutoffTime` shift loop, with
`cutoffTime = currentTime - 30 * 1000`. -/
def pruneWindow (completionTimes : List ℚ) (currentTime : ℚ) : List ℚ :=
  completionTimes.dropWhile fun t => t < currentTime - 30 * 1000

/-- Throughput computation of `RouteQueue.updateProgress` (after the prune):
the windowed rate when `completionTimes.length > 0` and
`currentTime - completionTimes[0] > 1000`; otherwise
`completedTasks / elapsedSeconds` when `elapsedSeconds > 0`, else `0`. -/
def routesPerSecond (completionTimes : List ℚ) (startTime currentTime : ℚ)
    (completedTasks : Nat) : ℚ :=
  let times := pruneWindow completionTimes currentTime
  let elapsedSeconds := (currentTime - startTime) / 1000
  if 0 < times.length ∧ 1000 < currentTime - times.headD 0 then
    (times.length : ℚ) / ((currentTime - times.headD 0) / 1000)
  else if 0 < elapsedSeconds then (completedTasks : ℚ) / elapsedSeconds
  else 0

/-- The claim's throughput rule, stated from the spec's words: the windowed
rate exactly when the window holds more than one sample spanning more than
one second; otherwise the fallback `completed / elapsed`. -/
def claimThroughput (completionTimes : List ℚ) (startTime currentTime : ℚ)
    (completedTasks : Nat) : ℚ :=
  let times := pruneWindow completionTimes currentTime
  let elapsedSeconds := (currentTime - startTime) / 1000
  if 1 < times.length ∧ 1000 < currentTime - times.headD 0 then
    (times.length : ℚ) / ((currentTime - times.headD 0) / 1000)
  else if 0 < elapsedSeconds then (completedTasks : ℚ) / elapsedSeconds
  else 0

/-- The amended throughput rule: the windowed rate exactly when the pruned
window is non-empty and its oldest sample is more than one second old;
otherwise the fallback `completed / elapsed` (and `0` when no time has
elapsed). -/
def amendedThroughput (completionTimes : List ℚ) (startTime currentTime : ℚ)
    (completedTasks : Nat) : ℚ :=
  let fallback :=
    if 0 < (currentTime - startTime) / 1000 then
      (completedTasks : ℚ) / ((currentTime - startTime) / 1000)
    else 0
  match pruneWindow completionTimes currentTime with
  | [] => fallback
  | t0 :: rest =>
    if 1000 < currentTime - t0 then
      ((t0 :: rest).length : ℚ) / ((currentTime - t0) / 1000)
    else fallback

/-! ## Completion counters (src/unnamed/part_001, `processQueue` callback) -/

/-- One completion delivered by the engine's completion stream: either an
`Error`, or a result (`null`, or a route carrying its list of path
elements). -/
inductive TaskCompletion where
  | err : TaskCompletion
  | res : Option (List Int) → TaskCompletion
deriving DecidableEq

/-- The `!result || !result.nodes || !result.nodes.length` test of the
callback: the result is `null` or carries zero path elements. -/
def isEmptyResult : Option (List Int) → Bool
  | none => true
  | some ns => ns.isEmpty

/-- Counters owned by one `awaitAll` run. -/
structure RunCounters where
  completedTasks : Nat
  emptyCount : Nat
deriving DecidableEq

/-- Body of the `processQueue` callback, restricted to the counter updates:
an error increments only `completedTasks`; a non-error result additionally
increments `emptyCount` when it is empty. -/
def callbackStep (c : RunCounters) : TaskCompletion → RunCounters
  | .err => { c with completedTasks := c.completedTasks + 1 }
  | .res r =>
      { completedTasks := c.completedTasks + 1,
        emptyCount := if isEmptyResult r then c.emptyCount + 1 else c.emptyCount }

/-- Counters after a whole completion trace has been consumed. -/
def runCounters (trace : List TaskCompletion) : RunCounters :=
  trace.foldl callbackStep ⟨0, 0⟩

/-- A completion that the claim counts as empty: delivered as a non-error
result that is `null` or carries zero path elements. -/
def isEmptyCompletion : TaskCompletion → Bool
  | .err => false
  | .res r => isEmptyResult r

/-! ## Profile penalty flattening (src/src/modules/Profile.ts constructor) -/

/-- The key of one penalty entry: a single tag value or a group of values. -/
inductive PenaltyKey where
  | single : String → PenaltyKey
  | group : List String → PenaltyKey
deriving DecidableEq

/-- `convertedPenalties[k] = value` on the JavaScript record, modelled as a
pointwise update of a partial map. -/
def recordSet (m : String → Option ℚ) (k : String) (v : ℚ) : String → Option ℚ :=
  fun s => if s = k then some v else m s

/-- One iteration of the penalties loop of `Profile`'s constructor: a single
value is assigned directly; every member of a group is assigned in order. -/
def applyPenaltyEntry (m : String → Option ℚ) : PenaltyKey × ℚ → (String → Option ℚ)
  | (.single k, v) => recordSet m k v
  | (.group ks, v) => ks.foldl (fun acc k => recordSet acc k v) m

/-- The flattened value-to-weight record built by `Profile`'s constructor
from the penalty table, starting from the empty record. -/
def convertPenalties (entries : List (PenaltyKey × ℚ)) : String → Option ℚ :=
  entries.foldl applyPenaltyEntry (fun _ => none)

/-- Whether a penalty entry mentions the tag value `v` (as the single value
or inside the group of values). -/
def entryContains (v : String) : PenaltyKey × ℚ → Bool
  | (.single k, _) => v == k
  | (.group ks, _) => ks.contains v

/-- The weight of the last entry (in entry order) that mentions `v`, if any:
the claim's description of the flattened mapping. -/
def lastWeightIn (entries : List (PenaltyKey × ℚ)) (v : String) : Option ℚ :=
  entries.foldl (fun acc e => if entryContains v e then some e.2 else acc) none

/-! ## Geometry: shared data model

A `Location` is an ordered `[longitude, latitude]` pair; floating-point
coordinates are modelled as real numbers. -/

/-- A coordinate pair `(longitude, latitude)`. -/
abbrev GeoPoint := ℝ × ℝ

noncomputable section

/-! ## Shape simplifier (src/unnamed/part_000, Ramer-Douglas-Peucker) -/

/-- `perpendicularDistance`: distance from `p` to the segment from `p1` to
`p2` (via the clamped projection parameter), or the plain Euclidean distance
to `p1` when the segment has zero length. -/
def perpendicularDistance (p p1 p2 : GeoPoint) : ℝ :=
  let lineLengthSquared := (p2.1 - p1.1) ^ 2 + (p2.2 - p1.2) ^ 2
  if lineLengthSquared = 0 then
    Real.sqrt ((p.1 - p1.1) ^ 2 + (p.2 - p1.2) ^ 2)
  else
    let clampedT := max 0 (min 1
      (((p.1 - p1.1) * (p2.1 - p1.1) + (p.2 - p1.2) * (p2.2 - p1.2)) / lineLengthSquared))
    let dx := p.1 - (p1.1 + clampedT * (p2.1 - p1.1))
    let dy := p.2 - (p1.2 + clampedT * (p2.2 - p1.2))
    Real.sqrt (dx * dx + dy * dy)

/-- `findFurthestPoint`: index and distance of the interior point furthest
from the chord between the first and last point (`(0, 0)` for up to two
points); the loop runs `i` from `1` to `points.length - 2` and keeps the
first index attaining the maximum (strict improvement only). -/
def findFurthestPoint (points : List GeoPoint) : Nat × ℝ :=
  if points.length ≤ 2 then (0, 0)
  else
    (List.range (points.length - 2)).foldl
      (fun acc j =>
        let i := j + 1
        let d := perpendicularDistance (points.getD i (0, 0)) (points.getD 0 (0, 0))
          (points.getD (points.length - 1) (0, 0))
        if acc.2 < d then (i, d) else acc)
      (0, 0)

/-- `rdpSimplify`, with an explicit recursion-depth fuel.  The source
recursion always terminates when it is entered through the `epsilon > 0`
guard of the exported function, and a fuel of `points.length` is then never
exhausted; the fuel only makes the degenerate `epsilon < 0` recursion (a
stack overflow in the source) total. -/
def rdpSimplify : Nat → List GeoPoint → ℝ → List GeoPoint
  | 0, points, _ => points
  | fuel + 1, points, epsilon =>
    if points.length ≤ 2 then points
    else
      let fp := findFurthestPoint points
      if epsilon < fp.2 then
        let simplifiedFirst := rdpSimplify fuel (points.take (fp.1 + 1)) epsilon
        let simplifiedSecond := rdpSimplify fuel (points.drop fp.1) epsilon
        simplifiedFirst.take (simplifiedFirst.length - 1) ++ simplifiedSecond
      else
        [points.getD 0 (0, 0), points.getD (points.length - 1) (0, 0)]

/-- The exported simplifier: returns the input unchanged when it is empty or
`epsilon ≤ 0`, otherwise runs `rdpSimplify`. -/
def simplifyShape (shapePoints : List GeoPoint) (epsilon : ℝ) : List GeoPoint :=
  if shapePoints.length = 0 ∨ epsilon ≤ 0 then shapePoints
  else rdpSimplify shapePoints.length shapePoints epsilon

/-! ## Shape offsetter (src/src/tools/offsetShape.ts and
src/unnamed/part_000's unconditional-join revision) -/

/-- The projected length of the segment from `p1` to `p2`: the longitude
difference is compressed by the cosine of the mean latitude (in radians)
before the Euclidean length is taken.  This is the `l` computed by
`processPointSegment`. -/
def projectedLength (p1 p2 : GeoPoint) : ℝ :=
  let lonFactor := Real.cos (((p1.2 + p2.2) / 2) * Real.pi / 180)
  let dx := (p2.1 - p1.1) * lonFactor
  let dy := p2.2 - p1.2
  Real.sqrt (dx * dx + dy * dy)

/-- `processPointSegment`: offsets one segment perpendicularly by
`offsetMeters` (converted to angular degrees on a sphere of radius
6 371 000 m).  When the projected length is below `1e-10` the segment is
emitted unshifted.  The source returns the two offset endpoints as a
two-element array; they are modelled as a pair. -/
def processPointSegment (p1 p2 : GeoPoint) (offsetMeters : ℝ) : GeoPoint × GeoPoint :=
  let offsetDeg := offsetMeters / ((6371000 * Real.pi) / 180)
  let lonFactor := Real.cos (((p1.2 + p2.2) / 2) * Real.pi / 180)
  let l := projectedLength p1 p2
  if l < 1e-10 then (p1, p2)
  else
    ((p1.1 + offsetDeg * (p2.2 - p1.2) / (l * lonFactor),
      p1.2 + offsetDeg * (p1.1 - p2.1) / l),
     (p2.1 + offsetDeg * (p2.2 - p1.2) / (l * lonFactor),
      p2.2 + offsetDeg * (p1.1 - p2.1) / l))

/-- The two-line determinant `a1 * b2 - a2 * b1` computed by
`findIntersection` for the infinite lines through `p1`-`p2` and `p3`-`p4`. -/
def lineDet (p1 p2 p3 p4 : GeoPoint) : ℝ :=
  (p2.2 - p1.2) * (p3.1 - p4.1) - (p4.2 - p3.2) * (p1.1 - p2.1)

/-- `findIntersection`: intersection of the two infinite lines in the
standard determinant form; `none` when the determinant's magnitude is below
`1e-10`. -/
def findIntersection (p1 p2 p3 p4 : GeoPoint) : Option GeoPoint :=
  let a1 := p2.2 - p1.2
  let b1 := p1.1 - p2.1
  let c1 := a1 * p1.1 + b1 * p1.2
  let a2 := p4.2 - p3.2
  let b2 := p3.1 - p4.1
  let c2 := a2 * p3.1 + b2 * p3.2
  let det := a1 * b2 - a2 * b1
  if |det| < 1e-10 then none
  else some ((b2 * c1 - b1 * c2) / det, (a1 * c2 - a2 * c1) / det)

/-- The per-segment pass of the offsetter: one offset segment per
consecutive input point pair. -/
def segmentsOf (points : List GeoPoint) (offsetMeters : ℝ) :
    List (GeoPoint × GeoPoint) :=
  (points.zip points.tail).map fun pq => processPointSegment pq.1 pq.2 offsetMeters

/-- The points emitted at internal junction `i` by the joining loop of
src/src/tools/offsetShape.ts: the line intersection of the two adjacent
offset segments when the turn between the original input segments is not a
near-reversal (normalized dot product at least `-0.99`) and the intersection
exists; otherwise the current segment's end followed by the next segment's
start. -/
def joinEmit (points : List GeoPoint) (segments : List (GeoPoint × GeoPoint))
    (i : Nat) : List GeoPoint :=
  let currentSeg := segments.getD i ((0, 0), (0, 0))
  let nextSeg := segments.getD (i + 1) ((0, 0), (0, 0))
  let p1 := points.getD i (0, 0)
  let p2 := points.getD (i + 1) (0, 0)
  let p3 := points.getD (i + 2) (0, 0)
  let v1 : GeoPoint := (p2.1 - p1.1, p2.2 - p1.2)
  let v2 : GeoPoint := (p3.1 - p2.1, p3.2 - p2.2)
  let dotProduct := v1.1 * v2.1 + v1.2 * v2.2
  let mag1 := Real.sqrt (v1.1 * v1.1 + v1.2 * v1.2)
  let mag2 := Real.sqrt (v2.1 * v2.1 + v2.2 * v2.2)
  if 0 < mag1 ∧ 0 < mag2 then
    if -0.99 ≤ dotProduct / (mag1 * mag2) then
      match findIntersection currentSeg.1 currentSeg.2 nextSeg.1 nextSeg.2 with
      | some inter => [inter]
      | none => [currentSeg.2, nextSeg.1]
    else [currentSeg.2, nextSeg.1]
  else [currentSeg.2, nextSeg.1]

/-- The exported offsetter of src/src/tools/offsetShape.ts (the angle-gated
join policy): empty output for fewer than two points; otherwise the first
offset segment's start, the per-junction emissions, and the last offset
segment's end. -/
def offsetShape (points : List GeoPoint) (offsetMeters : ℝ) : List GeoPoint :=
  if points.length < 2 then []
  else
    let segments := segmentsOf points offsetMeters
    if segments.length = 0 then []
    else
      (segments.getD 0 ((0, 0), (0, 0))).1 ::
        ((List.range (segments.length - 1)).map (joinEmit points segments)).flatten
        ++ [(segments.getD (segments.length - 1) ((0, 0), (0, 0))).2]

/-- The points emitted at internal junction `i` by the joining loop of the
src/unnamed/part_000 revision of the offsetter: the intersection whenever it
exists, the two segment endpoints otherwise (no angle gate). -/
def joinEmitV0 (segments : List (GeoPoint × GeoPoint)) (i : Nat) : List GeoPoint :=
  let currentSeg := segments.getD i ((0, 0), (0, 0))
  let nextSeg := segments.getD (i + 1) ((0, 0), (0, 0))
  match findIntersection currentSeg.1 currentSeg.2 nextSeg.1 nextSeg.2 with
  | some inter => [inter]
  | none => [currentSeg.2, nextSeg.1]

/-- The exported offsetter of the src/unnamed/part_000 revision: takes a
signed side and joins unconditionally via `findIntersection`. -/
def offsetShapeV0 (points : List GeoPoint) (offsetMeters offsetSide : ℝ) :
    List GeoPoint :=
  if points.length < 2 then []
  else
    let segments := segmentsOf points (offsetMeters * offsetSide)
    if segments.length = 0 then []
    else
      (segments.getD 0 ((0, 0), (0, 0))).1 ::
        ((List.range (segments.length - 1)).map (joinEmitV0 segments)).flatten
        ++ [(segments.getD (segments.length - 1) ((0, 0), (0, 0))).2]

end

/-! ## Theorems -/

/-- C1: while an `awaitAll` processing run is in flight (`processing = true`),
`enqueueRoute`, `clear` and a second `awaitAll` all fail with a state error;
after the run resolves (the callback resets `processing`), all three
operations are accepted again. -/
theorem routeQueue_state_error_gating (s : RouteQueueState) (rid : String)
    (h : s.processing = true) :
    enqueueRouteOp s rid = .error enqueueErrorMsg ∧
    clearOp s = .error clearErrorMsg ∧
    awaitAllStart s = .error awaitAllErrorMsg ∧
    opAccepted (enqueueRouteOp (finishRun s) rid) = true ∧
    opAccepted (clearOp (finishRun s)) = true ∧
    opAccepted (awaitAllStart (finishRun s)) = true := by
  refine ⟨?_, ?_, ?_, ?_, ?_, ?_⟩
  · simp [enqueueRouteOp, h]
  · simp [clearOp, h]
  · simp [awaitAllStart, h]
  · simp [enqueueRouteOp, finishRun, opAccepted]
  · simp [clearOp, finishRun, opAccepted]
  · by_cases hq : s.queuedTasks = 0 <;>
      simp [awaitAllStart, finishRun, opAccepted, hq]

/-- Witness for C1 at a concrete in-flight state. -/
theorem routeQueue_state_error_gating_witness :
    (RouteQueueState.mk true 3).processing = true ∧
    (enqueueRouteOp ⟨true, 3⟩ "r1" = .error enqueueErrorMsg ∧
     clearOp ⟨true, 3⟩ = .error clearErrorMsg ∧
     awaitAllStart ⟨true, 3⟩ = .error awaitAllErrorMsg ∧
     opAccepted (enqueueRouteOp (finishRun ⟨true, 3⟩) "r1") = true ∧
     opAccepted (clearOp (finishRun ⟨true, 3⟩)) = true ∧
     opAccepted (awaitAllStart (finishRun ⟨true, 3⟩)) = true) :=
  ⟨rfl, routeQueue_state_error_gating ⟨true, 3⟩ "r1" rfl⟩

/-- C2: a second `loadGraph` call after a first one returns the handle the
first call returned and leaves the state unchanged: the stored handle is
untouched and the engine's load operation is not called again. -/
theorem loadGraph_idempotent (e1 e2 : Int) (s : GraphState) :
    loadGraphOp e2 (loadGraphOp e1 s).2 = ((loadGraphOp e1 s).1, (loadGraphOp e1 s).2) := by
  cases hg : s.graphId <;> simp [loadGraphOp, hg]

/-- C5: the `RouteQueue` constructor's default concurrency bound is the
logical CPU count minus one, and the engine-side worker bound (minimum 1,
modelled from the spec) never drops below 1, even on a single-CPU machine. -/
theorem defaultConcurrency_cpu_minus_one (c : Nat) :
    defaultMaxConcurrency c = (c : Int) - 1 ∧
    1 ≤ engineWorkerBound (defaultMaxConcurrency c) ∧
    engineWorkerBound (defaultMaxConcurrency 1) = 1 := by
  refine ⟨rfl, le_max_left 1 _, by decide⟩

/-- C7 helper: the counters after folding a completion trace from any start:
`emptyCount` grows by the number of empty non-error completions and
`completedTasks` by the trace length. -/
theorem runCounters_foldl (trace : List TaskCompletion) :
    ∀ c : RunCounters,
      (trace.foldl callbackStep c).emptyCount
          = c.emptyCount + (trace.filter isEmptyCompletion).length ∧
      (trace.foldl callbackStep c).completedTasks = c.completedTasks + trace.length := by
  induction trace with
  | nil => intro c; simp
  | cons t ts ih =>
    intro c
    obtain ⟨ih1, ih2⟩ := ih (callbackStep c t)
    constructor
    · rw [List.foldl_cons, ih1]
      cases t with
      | err => simp [callbackStep, isEmptyCompletion, List.filter_cons]
      | res r =>
        by_cases hr : isEmptyResult r = true
        · simp [callbackStep, isEmptyCompletion, List.filter_cons, hr]
          omega
        · simp [callbackStep, isEmptyCompletion, List.filter_cons, hr]
    · rw [List.foldl_cons, ih2]
      cases t with
      | err => simp [callbackStep]; omega
      | res r => simp [callbackStep]; omega

/-- C7: over any completion trace of an `awaitAll` run, the empty counter
equals the number of completions that are delivered as a non-error result
that is `null` or carries zero path elements; completions delivered as
errors are never counted (and every completion increments the completed
counter). -/
theorem emptyCounter_counts_empty_results (trace : List TaskCompletion) :
    (runCounters trace).emptyCount = (trace.filter isEmptyCompletion).length ∧
    (runCounters trace).completedTasks = trace.length := by
  have h := runCounters_foldl trace ⟨0, 0⟩
  simpa [runCounters] using h

/-- C9 helper: assigning every member of a group in order is a pointwise
overwrite of the record on the group's members. -/
theorem recordSet_group (ks : List String) (w : ℚ) :
    ∀ (m : String → Option ℚ) (s : String),
      (ks.foldl (fun acc k => recordSet acc k w) m) s
        = if ks.contains s then some w else m s := by
  induction ks with
  | nil => intro m s; simp
  | cons k ks ih =>
    intro m s
    simp only [List.foldl_cons, ih, List.contains_cons]
    by_cases hs : s = k <;> simp [recordSet, hs]

/-- C9 helper: one loop iteration of the `Profile` constructor assigns the
entry's weight to exactly the values the entry mentions. -/
theorem applyPenaltyEntry_spec (m : String → Option ℚ) (e : PenaltyKey × ℚ) (s : String) :
    applyPenaltyEntry m e s = if entryContains s e then some e.2 else m s := by
  obtain ⟨k | ks, w⟩ := e
  · by_cases hs : s = k <;> simp [applyPenaltyEntry, entryContains, recordSet, hs]
  · simp [applyPenaltyEntry, entryContains, recordSet_group]

/-- C9 helper: the record built by the loop, read at `s`, equals a
last-entry-wins fold over the entries. -/
theorem convertPenalties_foldl (entries : List (PenaltyKey × ℚ)) :
    ∀ (m : String → Option ℚ) (s : String),
      (entries.foldl applyPenaltyEntry m) s
        = entries.foldl (fun acc e => if entryContains s e then some e.2 else acc) (m s) := by
  induction entries with
  | nil => intro m s; rfl
  | cons e es ih =>
    intro m s
    simp only [List.foldl_cons, ih, applyPenaltyEntry_spec]

/-- C9: the flattened value-to-weight mapping built by `Profile`'s
constructor assigns every tag value the weight of the last entry (in entry
order) that mentions it, whether as a single value or inside a group. -/
theorem penalties_last_entry_wins (entries : List (PenaltyKey × ℚ)) (v : String) :
    convertPenalties entries v = lastWeightIn entries v := by
  simpa [convertPenalties, lastWeightIn] using
    convertPenalties_foldl entries (fun _ => none) v

/-- C6 counterexample: with a single completion sample (timestamp `0`) that
is two seconds old and a run that started four seconds ago with one task
completed, the code computes the windowed rate `1 / 2` while the claim's
rule (more than one sample required) prescribes the fallback `1 / 4`. -/
theorem throughput_single_sample_counterexample :
    routesPerSecond [0] (-2000) 2000 1 = 1 / 2 ∧
    claimThroughput [0] (-2000) 2000 1 = 1 / 4 ∧
    routesPerSecond [0] (-2000) 2000 1 ≠ claimThroughput [0] (-2000) 2000 1 := by
  have hp : pruneWindow [0] 2000 = [0] := by
    unfold pruneWindow
    simp [List.dropWhile]
    norm_num
  have h1 : routesPerSecond [0] (-2000) 2000 1 = 1 / 2 := by
    unfold routesPerSecond
    rw [hp]
    norm_num [List.headD]
  have h2 : claimThroughput [0] (-2000) 2000 1 = 1 / 4 := by
    unfold claimThroughput
    rw [hp]
    norm_num [List.headD]
  refine ⟨h1, h2, by rw [h1, h2]; norm_num⟩

/-- C6 amended: the telemetry uses the windowed rate exactly when the pruned
window is non-empty and its oldest sample is more than one second old (not
only when it holds more than one sample); otherwise it falls back to
completed-over-elapsed, and to `0` when no time has elapsed. -/
theorem throughput_windowed_rule (completionTimes : List ℚ)
    (startTime currentTime : ℚ) (completedTasks : Nat) :
    routesPerSecond completionTimes startTime currentTime completedTasks =
      amendedThroughput completionTimes startTime currentTime completedTasks := by
  unfold routesPerSecond amendedThroughput
  cases h : pruneWindow completionTimes currentTime with
  | nil => simp [h]
  | cons t0 rest => simp [h]

/-- C8: a consecutive point pair whose projected segment length (longitude
compressed by the cosine of the mean latitude) is below `1e-10` is emitted
unshifted by the per-segment offset transform, for every offset distance. -/
theorem degenerate_segment_unshifted (p1 p2 : GeoPoint) (offsetMeters : ℝ)
    (h : projectedLength p1 p2 < 1e-10) :
    processPointSegment p1 p2 offsetMeters = (p1, p2) := by
  simp [processPointSegment, h]

/-- Witness for C8 at a pair of numerically coincident points. -/
theorem degenerate_segment_unshifted_witness :
    projectedLength ((0:ℝ), (0:ℝ)) ((0:ℝ), (0:ℝ)) < 1e-10 ∧
    processPointSegment ((0:ℝ), (0:ℝ)) ((0:ℝ), (0:ℝ)) 5
      = (((0:ℝ), (0:ℝ)), ((0:ℝ), (0:ℝ))) := by
  have hlen : projectedLength ((0:ℝ), (0:ℝ)) ((0:ℝ), (0:ℝ)) < 1e-10 := by
    unfold projectedLength
    norm_num
  exact ⟨hlen, degenerate_segment_unshifted _ _ 5 hlen⟩

/-- C10: on fewer than two input points both revisions of the shape offset
operation return the empty sequence (and in particular raise no error). -/
theorem offset_short_input_empty (points : List GeoPoint)
    (offsetMeters offsetSide : ℝ) (h : points.length < 2) :
    offsetShape points offsetMeters = [] ∧
    offsetShapeV0 points offsetMeters offsetSide = [] := by
  constructor
  · unfold offsetShape
    rw [if_pos h]
  · unfold offsetShapeV0
    rw [if_pos h]

/-- Witness for C10 at a single-point input. -/
theorem offset_short_input_empty_witness :
    ([((0:ℝ), (0:ℝ))] : List GeoPoint).length < 2 ∧
    (offsetShape [((0:ℝ), (0:ℝ))] 1 = [] ∧
     offsetShapeV0 [((0:ℝ), (0:ℝ))] 1 (-1) = []) :=
  ⟨by simp, offset_short_input_empty _ 1 (-1) (by simp)⟩

/-- C3 helper: the running maximum kept by `findFurthestPoint`'s loop stays
below `eps` when the accumulator and every scanned distance are below it. -/
theorem foldl_furthest_lt (g : Nat → ℝ) (eps : ℝ) (l : List Nat) :
    ∀ acc : Nat × ℝ, acc.2 < eps → (∀ j ∈ l, g j < eps) →
      (l.foldl (fun a j => if a.2 < g j then (j + 1, g j) else a) acc).2 < eps := by
  induction l with
  | nil => intro acc hacc _; exact hacc
  | cons j js ih =>
    intro acc hacc hl
    simp only [List.foldl_cons]
    apply ih
    · by_cases hj : acc.2 < g j
      · simpa [hj] using hl j (by simp)
      · simpa [hj] using hacc
    · intro k hk
      exact hl k (by simp [hk])

/-- C3 helper: when `eps` is positive and strictly dominates every interior
point's perpendicular distance to the first/last chord, the maximum located
by `findFurthestPoint` is below `eps`. -/
theorem findFurthestPoint_snd_lt (points : List GeoPoint) (eps : ℝ)
    (heps : 0 < eps)
    (hint : ∀ i, 1 ≤ i → i ≤ points.length - 2 →
      perpendicularDistance (points.getD i (0, 0)) (points.getD 0 (0, 0))
        (points.getD (points.length - 1) (0, 0)) < eps) :
    (findFurthestPoint points).2 < eps := by
  unfold findFurthestPoint
  split
  · exact heps
  · next hlen =>
    refine foldl_furthest_lt
      (fun j => perpendicularDistance (points.getD (j + 1) (0, 0)) (points.getD 0 (0, 0))
        (points.getD (points.length - 1) (0, 0))) eps _ (0, 0) heps ?_
    intro j hj
    rw [List.mem_range] at hj
    exact hint (j + 1) (by omega) (by omega)

/-- C3: for at least three points and a positive `epsilon` strictly greater
than every interior point's perpendicular distance to the chord between the
first and last point, the simplifier returns exactly the two-element
sequence of the first and last point. -/
theorem rdp_collapses_when_eps_dominates (points : List GeoPoint) (eps : ℝ)
    (h3 : 3 ≤ points.length) (heps : 0 < eps)
    (hint : ∀ i, 1 ≤ i → i ≤ points.length - 2 →
      perpendicularDistance (points.getD i (0, 0)) (points.getD 0 (0, 0))
        (points.getD (points.length - 1) (0, 0)) < eps) :
    simplifyShape points eps
      = [points.getD 0 (0, 0), points.getD (points.length - 1) (0, 0)] := by
  have hfp : (findFurthestPoint points).2 < eps :=
    findFurthestPoint_snd_lt points eps heps hint
  have hguard : ¬(points.length = 0 ∨ eps ≤ 0) := by
    push_neg
    exact ⟨by omega, heps⟩
  unfold simplifyShape
  rw [if_neg hguard]
  obtain ⟨m, hm⟩ : ∃ m, points.length = m + 1 := ⟨points.length - 1, by omega⟩
  rw [hm]
  unfold rdpSimplify
  rw [if_neg (by omega), if_neg (not_lt.mpr hfp.le)]
  rw [← hm]

/-- Witness for C3 on three collinear points with `epsilon = 1/2`. -/
theorem rdp_collapses_when_eps_dominates_witness :
    3 ≤ ([((0:ℝ), (0:ℝ)), ((0:ℝ), (1:ℝ)), ((0:ℝ), (2:ℝ))] : List GeoPoint).length ∧
    (0:ℝ) < 1 / 2 ∧
    (∀ i, 1 ≤ i →
      i ≤ ([((0:ℝ), (0:ℝ)), ((0:ℝ), (1:ℝ)), ((0:ℝ), (2:ℝ))] : List GeoPoint).length - 2 →
      perpendicularDistance
        (([((0:ℝ), (0:ℝ)), ((0:ℝ), (1:ℝ)), ((0:ℝ), (2:ℝ))] : List GeoPoint).getD i (0, 0))
        (([((0:ℝ), (0:ℝ)), ((0:ℝ), (1:ℝ)), ((0:ℝ), (2:ℝ))] : List GeoPoint).getD 0 (0, 0))
        (([((0:ℝ), (0:ℝ)), ((0:ℝ), (1:ℝ)), ((0:ℝ), (2:ℝ))] : List GeoPoint).getD
          (([((0:ℝ), (0:ℝ)), ((0:ℝ), (1:ℝ)), ((0:ℝ), (2:ℝ))] : List GeoPoint).length - 1)
          (0, 0)) < 1 / 2) ∧
    simplifyShape [((0:ℝ), (0:ℝ)), ((0:ℝ), (1:ℝ)), ((0:ℝ), (2:ℝ))] (1 / 2)
      = [((0:ℝ), (0:ℝ)), ((0:ℝ), (2:ℝ))] := by
  have hint : ∀ i, 1 ≤ i →
      i ≤ ([((0:ℝ), (0:ℝ)), ((0:ℝ), (1:ℝ)), ((0:ℝ), (2:ℝ))] : List GeoPoint).length - 2 →
      perpendicularDistance
        (([((0:ℝ), (0:ℝ)), ((0:ℝ), (1:ℝ)), ((0:ℝ), (2:ℝ))] : List GeoPoint).getD i (0, 0))
        (([((0:ℝ), (0:ℝ)), ((0:ℝ), (1:ℝ)), ((0:ℝ), (2:ℝ))] : List GeoPoint).getD 0 (0, 0))
        (([((0:ℝ), (0:ℝ)), ((0:ℝ), (1:ℝ)), ((0:ℝ), (2:ℝ))] : List GeoPoint).getD
          (([((0:ℝ), (0:ℝ)), ((0:ℝ), (1:ℝ)), ((0:ℝ), (2:ℝ))] : List GeoPoint).length - 1)
          (0, 0)) < 1 / 2 := by
    intro i h1 h2
    simp only [List.length_cons, List.length_nil] at h2
    have hi : i = 1 := by omega
    subst hi
    simp only [List.getD, List.get?, List.getElem?_cons_succ, List.getElem?_cons_zero]
    unfold perpendicularDistance
    rw [if_neg (by norm_num)]
    norm_num [min_def, max_def, Real.sqrt_zero]
  have happ := rdp_collapses_when_eps_dominates
    [((0:ℝ), (0:ℝ)), ((0:ℝ), (1:ℝ)), ((0:ℝ), (2:ℝ))] (1 / 2) (by simp) (by norm_num) hint
  refine ⟨by simp, by norm_num, hint, ?_⟩
  simpa using happ

/-- C4 helper: `findIntersection` declines to intersect exactly the
near-parallel configurations, i.e. it returns `none` whenever the
determinant's magnitude is below `1e-10`. -/
theorem findIntersection_eq_none (p1 p2 p3 p4 : GeoPoint)
    (h : |lineDet p1 p2 p3 p4| < 1e-10) :
    findIntersection p1 p2 p3 p4 = none := by
  have h' : |(p2.2 - p1.2) * (p3.1 - p4.1) - (p4.2 - p3.2) * (p1.1 - p2.1)| < 1e-10 := h
  simp only [findIntersection]
  rw [if_pos h']

/-- C4 helper: the number of offset segments is one less than the number of
input points (for a non-empty input). -/
theorem segmentsOf_length (points : List GeoPoint) (offsetMeters : ℝ)
    (h : 1 ≤ points.length) :
    (segmentsOf points offsetMeters).length = points.length - 1 := by
  simp only [segmentsOf, List.length_map, List.length_zip, List.length_tail]
  omega

/-- C4 helper: at a junction whose adjacent offset segments are
near-parallel (determinant magnitude below `1e-10`), the joining loop emits
no intersection point but the current segment's end followed by the next
segment's start, whichever way the near-reversal gate decides. -/
theorem joinEmit_parallel (points : List GeoPoint)
    (segments : List (GeoPoint × GeoPoint)) (i : Nat)
    (h : |lineDet (segments.getD i ((0, 0), (0, 0))).1 (segments.getD i ((0, 0), (0, 0))).2
        (segments.getD (i + 1) ((0, 0), (0, 0))).1
        (segments.getD (i + 1) ((0, 0), (0, 0))).2| < 1e-10) :
    joinEmit points segments i =
      [(segments.getD i ((0, 0), (0, 0))).2, (segments.getD (i + 1) ((0, 0), (0, 0))).1] := by
  have hnone := findIntersection_eq_none _ _ _ _ h
  unfold joinEmit
  simp only [hnone, ite_self]

/-- C4 helper: for at least two input points the offsetter's output is the
first offset segment's start, then the per-junction emissions in order,
then the last offset segment's end. -/
theorem offsetShape_structure (points : List GeoPoint) (offsetMeters : ℝ)
    (h : 2 ≤ points.length) :
    offsetShape points offsetMeters =
      ((segmentsOf points offsetMeters).getD 0 ((0, 0), (0, 0))).1 ::
        ((List.range ((segmentsOf points offsetMeters).length - 1)).map
          (joinEmit points (segmentsOf points offsetMeters))).flatten
        ++ [((segmentsOf points offsetMeters).getD
              ((segmentsOf points offsetMeters).length - 1) ((0, 0), (0, 0))).2] := by
  have hlen : (segmentsOf points offsetMeters).length = points.length - 1 :=
    segmentsOf_length points offsetMeters (by omega)
  unfold offsetShape
  rw [if_neg (by omega), if_neg (by omega)]

/-- C4: for at least two input points, the offset output begins with the
first offset segment's start point and ends with the last offset segment's
end point, and every internal junction whose adjacent offset segments have
a line-intersection determinant of magnitude below `1e-10` contributes no
intersection point to the output but both segment endpoints (the current
segment's end, then the next segment's start). -/
theorem offsetShape_endpoints_and_parallel_junctions (points : List GeoPoint)
    (offsetMeters : ℝ) (h : 2 ≤ points.length) :
    offsetShape points offsetMeters =
      ((segmentsOf points offsetMeters).getD 0 ((0, 0), (0, 0))).1 ::
        ((List.range ((segmentsOf points offsetMeters).length - 1)).map
          (joinEmit points (segmentsOf points offsetMeters))).flatten
        ++ [((segmentsOf points offsetMeters).getD
              ((segmentsOf points offsetMeters).length - 1) ((0, 0), (0, 0))).2] ∧
    (offsetShape points offsetMeters).head?
      = some ((segmentsOf points offsetMeters).getD 0 ((0, 0), (0, 0))).1 ∧
    (offsetShape points offsetMeters).getLast?
      = some ((segmentsOf points offsetMeters).getD
          ((segmentsOf points offsetMeters).length - 1) ((0, 0), (0, 0))).2 ∧
    (∀ i, i < (segmentsOf points offsetMeters).length - 1 →
      |lineDet ((segmentsOf points offsetMeters).getD i ((0, 0), (0, 0))).1
          ((segmentsOf points offsetMeters).getD i ((0, 0), (0, 0))).2
          ((segmentsOf points offsetMeters).getD (i + 1) ((0, 0), (0, 0))).1
          ((segmentsOf points offsetMeters).getD (i + 1) ((0, 0), (0, 0))).2| < 1e-10 →
      joinEmit points (segmentsOf points offsetMeters) i =
        [((segmentsOf points offsetMeters).getD i ((0, 0), (0, 0))).2,
         ((segmentsOf points offsetMeters).getD (i + 1) ((0, 0), (0, 0))).1]) := by
  have hs := offsetShape_structure points offsetMeters h
  refine ⟨hs, ?_, ?_, ?_⟩
  · rw [hs]
    rfl
  · rw [hs, List.getLast?_concat]
  · intro i _ hdet
    exact joinEmit_parallel points (segmentsOf points offsetMeters) i hdet

/-- Witness for C4 on a two-point input (no internal junctions). -/
theorem offsetShape_endpoints_witness :
    2 ≤ ([((0:ℝ), (0:ℝ)), ((1:ℝ), (0:ℝ))] : List GeoPoint).length ∧
    (offsetShape [((0:ℝ), (0:ℝ)), ((1:ℝ), (0:ℝ))] 1 =
      ((segmentsOf [((0:ℝ), (0:ℝ)), ((1:ℝ), (0:ℝ))] 1).getD 0 ((0, 0), (0, 0))).1 ::
        ((List.range ((segmentsOf [((0:ℝ), (0:ℝ)), ((1:ℝ), (0:ℝ))] 1).length - 1)).map
          (joinEmit [((0:ℝ), (0:ℝ)), ((1:ℝ), (0:ℝ))]
            (segmentsOf [((0:ℝ), (0:ℝ)), ((1:ℝ), (0:ℝ))] 1))).flatten
        ++ [((segmentsOf [((0:ℝ), (0:ℝ)), ((1:ℝ), (0:ℝ))] 1).getD
              ((segmentsOf [((0:ℝ), (0:ℝ)), ((1:ℝ), (0:ℝ))] 1).length - 1)
              ((0, 0), (0, 0))).2] ∧
     (offsetShape [((0:ℝ), (0:ℝ)), ((1:ℝ), (0:ℝ))] 1).head?
       = some ((segmentsOf [((0:ℝ), (0:ℝ)), ((1:ℝ), (0:ℝ))] 1).getD 0 ((0, 0), (0, 0))).1 ∧
     (offsetShape [((0:ℝ), (0:ℝ)), ((1:ℝ), (0:ℝ))] 1).getLast?
       = some ((segmentsOf [((0:ℝ), (0:ℝ)), ((1:ℝ), (0:ℝ))] 1).getD
           ((segmentsOf [((0:ℝ), (0:ℝ)), ((1:ℝ), (0:ℝ))] 1).length - 1)
           ((0, 0), (0, 0))).2 ∧
     (∀ i, i < (segmentsOf [((0:ℝ), (0:ℝ)), ((1:ℝ), (0:ℝ))] 1).length - 1 →
       |lineDet ((segmentsOf [((0:ℝ), (0:ℝ)), ((1:ℝ), (0:ℝ))] 1).getD i ((0, 0), (0, 0))).1
           ((segmentsOf [((0:ℝ), (0:ℝ)), ((1:ℝ), (0:ℝ))] 1).getD i ((0, 0), (0, 0))).2
           ((segmentsOf [((0:ℝ), (0:ℝ)), ((1:ℝ), (0:ℝ))] 1).getD (i + 1) ((0, 0), (0, 0))).1
           ((segmentsOf [((0:ℝ), (0:ℝ)), ((1:ℝ), (0:ℝ))] 1).getD (i + 1)
             ((0, 0), (0, 0))).2| < 1e-10 →
       joinEmit [((0:ℝ), (0:ℝ)), ((1:ℝ), (0:ℝ))]
           (segmentsOf [((0:ℝ), (0:ℝ)), ((1:ℝ), (0:ℝ))] 1) i =
         [((segmentsOf [((0:ℝ), (0:ℝ)), ((1:ℝ), (0:ℝ))] 1).getD i ((0, 0), (0, 0))).2,
          ((segmentsOf [((0:ℝ), (0:ℝ)), ((1:ℝ), (0:ℝ))] 1).getD (i + 1)
            ((0, 0), (0, 0))).1])) :=
  ⟨by simp,
   offsetShape_endpoints_and_parallel_junctions [((0:ℝ), (0:ℝ)), ((1:ℝ), (0:ℝ))] 1 (by simp)⟩
